import Mathlib

/-!
Verification development for the Hyper-Alpha-Arena market-regime core:
a shallow embedding of `backend/services/market_regime_service.py` and
`backend/services/signal_analysis_service.py` (plus the price-metric
wrapper over the technical-indicator service and the default threshold
config from `backend/database/migrations/create_market_regime_configs.py`),
with theorems checking the natural-language specification against it.

Modelling conventions:
* Python floats are embedded as `ℚ` (exact rational arithmetic).
* `math.log`, `math.exp`, `numpy.sqrt` are transcendental and not exactly
  representable on `ℚ`; they are threaded through as explicit function
  parameters (`log`, `exp`, `sqrtQ`).  No theorem below depends on their
  values, so every statement quantifies over them.
* Python timestamps are `Int` (milliseconds) or `Int` (seconds for K-line
  rows, as stored by the repository).  Python floor division `//` is
  `Int.fdiv`.
* Python `round(x, n)` is round-half-to-even at `n` decimal digits,
  embedded exactly on `ℚ` by `pyRound`.
* Python dicts returned by the services are embedded as structures whose
  optional keys are `Option` fields.
-/

/-- Embeds the Python built-in rounding to an integer: round half to even. -/
def roundHalfEven (q : ℚ) : ℤ :=
  let f := ⌊q⌋
  let r := q - (f : ℚ)
  if r < 1/2 then f
  else if 1/2 < r then f + 1
  else if f % 2 = 0 then f else f + 1

/-- Embeds Python `round(x, n)` on our rational embedding of floats. -/
def pyRound (q : ℚ) (n : ℕ) : ℚ :=
  (roundHalfEven (q * 10 ^ n) : ℚ) / 10 ^ n

-- Regime type constants (market_regime_service.py lines 35-41).

def REGIME_STOP_HUNT : String := "stop_hunt"

def REGIME_ABSORPTION : String := "absorption"

def REGIME_BREAKOUT : String := "breakout"

def REGIME_CONTINUATION : String := "continuation"

def REGIME_EXHAUSTION : String := "exhaustion"

def REGIME_TRAP : String := "trap"

def REGIME_NOISE : String := "noise"

-- Direction constants (market_regime_service.py lines 44-46).

def DIRECTION_BULLISH : String := "bullish"

def DIRECTION_BEARISH : String := "bearish"

def DIRECTION_NEUTRAL : String := "neutral"

/-- A row of the `market_regime_configs` table
(`create_market_regime_configs.py`); threshold bundle consumed by the
classifier.  Field names follow the table columns. -/
structure MarketRegimeConfig where
  id : ℕ
  name : String
  is_default : Bool
  rolling_window : ℕ
  breakout_cvd_z : ℚ
  breakout_oi_z : ℚ
  breakout_price_atr : ℚ
  breakout_taker_high : ℚ
  breakout_taker_low : ℚ
  absorption_cvd_z : ℚ
  absorption_price_atr : ℚ
  trap_cvd_z : ℚ
  trap_oi_z : ℚ
  exhaustion_cvd_z : ℚ
  exhaustion_rsi_high : ℚ
  exhaustion_rsi_low : ℚ
  stop_hunt_range_atr : ℚ
  stop_hunt_close_atr : ℚ
  noise_cvd_z : ℚ
deriving DecidableEq

/-- The default config row as produced by the migration after its
2024-12 update path (`create_market_regime_configs.py` lines 18-22 and
41-67): `breakout_oi_z = 0.1`, `trap_oi_z = -0.5`, taker thresholds
`33 / 0.03`; the remaining columns keep the table defaults of the
`INSERT` at lines 104-121. -/
def defaultConfig : MarketRegimeConfig where
  id := 1
  name := "Default"
  is_default := true
  rolling_window := 48
  breakout_cvd_z := 1.5
  breakout_oi_z := 0.1
  breakout_price_atr := 0.3
  breakout_taker_high := 33
  breakout_taker_low := 0.03
  absorption_cvd_z := 1.5
  absorption_price_atr := 0.3
  trap_cvd_z := 1.0
  trap_oi_z := -0.5
  exhaustion_cvd_z := 1.0
  exhaustion_rsi_high := 70.0
  exhaustion_rsi_low := 30.0
  stop_hunt_range_atr := 1.0
  stop_hunt_close_atr := 0.3
  noise_cvd_z := 0.5

/-- Embeds `calculate_direction` (market_regime_service.py lines 56-79): majority
vote by sign over cvd, taker and price. -/
def calculate_direction (cvd_ratio taker_log_ratio price_atr : ℚ) : String :=
  let votes : ℤ :=
    (if cvd_ratio > 0 then 1 else if cvd_ratio < 0 then -1 else 0) +
    (if taker_log_ratio > 0 then 1 else if taker_log_ratio < 0 then -1 else 0) +
    (if price_atr > 0 then 1 else if price_atr < 0 then -1 else 0)
  if votes ≥ 2 then DIRECTION_BULLISH
  else if votes ≤ -2 then DIRECTION_BEARISH
  else DIRECTION_NEUTRAL

/-- Embeds `calculate_confidence` (market_regime_service.py lines 82-97). -/
def calculate_confidence (cvd_ratio taker_log_ratio oi_delta price_atr : ℚ) : ℚ :=
  let score :=
    0.3 * min |cvd_ratio| 0.3 / 0.3 +
    0.2 * min |taker_log_ratio| 1.0 / 1.0 +
    0.2 * min |oi_delta| 5.0 / 5.0 +
    0.3 * min |price_atr| 2.0 / 2.0
  max 0.0 (min 1.0 score)

/-- The breakout body-ratio expression of `classify_regime`
(market_regime_service.py line 152):
`abs(price_atr) / price_range_atr if price_range_atr > 0 else 1.0`. -/
def bodyRatio (price_atr price_range_atr : ℚ) : ℚ :=
  if price_range_atr > 0 then |price_atr| / price_range_atr else 1.0

/-- Embeds `classify_regime` (market_regime_service.py lines 100-182).  `log`
abstracts the Python `math.log` (used only to turn the configured taker-ratio
thresholds into log space); no claim below depends on its values. -/
def classify_regime (log : ℚ → ℚ)
    (cvd_ratio taker_log_ratio oi_delta price_atr rsi price_range_atr : ℚ)
    (config : MarketRegimeConfig) : String × String :=
  let cvd_strong := config.breakout_cvd_z * 0.1
  let cvd_weak := cvd_strong / 3
  let price_breakout := config.breakout_price_atr + 0.2
  let price_move := config.absorption_price_atr
  let oi_increase := config.breakout_oi_z
  let oi_decrease := config.trap_oi_z
  let taker_high_log :=
    if config.breakout_taker_high > 0 then log config.breakout_taker_high else 3.5
  let taker_low_log :=
    if config.breakout_taker_low > 0 then log config.breakout_taker_low else -3.5
  let is_taker_extreme :=
    taker_log_ratio > taker_high_log ∨ taker_log_ratio < taker_low_log
  let cvd_price_aligned :=
    (cvd_ratio > 0 ∧ price_atr > 0) ∨ (cvd_ratio < 0 ∧ price_atr < 0)
  if price_range_atr > config.stop_hunt_range_atr ∧
      |price_atr| < config.stop_hunt_close_atr then
    (REGIME_STOP_HUNT, "Price spiked but closed near open")
  else
    let is_cvd_strong := |cvd_ratio| > cvd_strong
    let is_price_breakout := |price_atr| > price_breakout
    let is_oi_increase := oi_delta > oi_increase
    let body_ratio := bodyRatio price_atr price_range_atr
    let is_solid_move := body_ratio > 0.4
    if is_cvd_strong ∧ is_price_breakout ∧ cvd_price_aligned ∧ is_solid_move ∧
        (is_taker_extreme ∨ is_oi_increase) then
      (REGIME_BREAKOUT,
        (if cvd_ratio > 0 then "Bullish" else "Bearish") ++ " breakout with aligned signals")
    else
      let is_oi_decrease := oi_delta < oi_decrease
      let rsi_extreme := rsi > config.exhaustion_rsi_high ∨ rsi < config.exhaustion_rsi_low
      if is_cvd_strong ∧ is_oi_decrease ∧ rsi_extreme then
        (REGIME_EXHAUSTION, "Trend exhaustion at RSI extreme")
      else if is_cvd_strong ∧ is_oi_decrease then
        (REGIME_TRAP, "Strong flow but positions closing (trap)")
      else
        let is_price_move := |price_atr| > price_move
        if is_cvd_strong ∧ ¬ is_price_move then
          (REGIME_ABSORPTION, "Strong flow absorbed without price movement")
        else
          let is_cvd_weak := |cvd_ratio| > cvd_weak
          if is_cvd_weak ∧ is_price_move ∧ cvd_price_aligned then
            (REGIME_CONTINUATION,
              (if cvd_ratio > 0 then "Bullish" else "Bearish") ++ " trend continuation")
          else
            (REGIME_NOISE, "No clear market regime detected")

/-- Python truthiness of an optional integer (`if current_time_ms:` /
`if config_id:`): `None` and `0` are falsy, every other value truthy. -/
def isTruthyInt : Option ℤ → Bool
  | none => false
  | some t => t != 0

/-- A row of the `crypto_klines` table as read by `fetch_kline_data`;
price/volume columns are nullable (`float(k.open_price) if k.open_price
else 0` in the source). Timestamps are stored in seconds. -/
structure CryptoKline where
  symbol : String
  period : String
  timestamp : ℤ
  open_price : Option ℚ
  high_price : Option ℚ
  low_price : Option ℚ
  close_price : Option ℚ
  volume : Option ℚ
deriving DecidableEq

/-- The bar dict produced by `fetch_kline_data`
(keys timestamp/open/high/low/close/volume). -/
structure KlineDict where
  timestamp : ℤ
  «open» : ℚ
  high : ℚ
  low : ℚ
  close : ℚ
  volume : ℚ
deriving DecidableEq

/-- Embeds `fetch_kline_data` (market_regime_service.py lines 185-226): filter by
symbol and period, bound by `current_time_ms // 1000` only when
`current_time_ms` is truthy, order by timestamp descending, take `limit`,
then return the rows in chronological order as dicts.  The database table
is modelled as the list `db`; SQL `ORDER BY timestamp DESC` is modelled by
a sort. -/
def fetch_kline_data (db : List CryptoKline) (symbol : String) (period : String)
    (limit : ℕ) (current_time_ms : Option ℤ) : List KlineDict :=
  let q1 := db.filter (fun k => k.symbol == symbol && k.period == period)
  let q2 :=
    if isTruthyInt current_time_ms then
      let current_time_s := (current_time_ms.getD 0).fdiv 1000
      q1.filter (fun k => decide (k.timestamp ≤ current_time_s))
    else q1
  let klines := (List.insertionSort (fun a b => b.timestamp ≤ a.timestamp) q2).take limit
  if klines.isEmpty then []
  else
    klines.reverse.map (fun k =>
      { timestamp := k.timestamp
        «open» := k.open_price.getD 0
        high := k.high_price.getD 0
        low := k.low_price.getD 0
        close := k.close_price.getD 0
        volume := k.volume.getD 0 })

/-- The same pipeline with no as-of bound at all; per the wording of the spec this
is what "returns the most recent bars" means.  Used only to compare with
`fetch_kline_data` on falsy as-of inputs. -/
def fetch_kline_data_unbounded (db : List CryptoKline) (symbol : String)
    (period : String) (limit : ℕ) : List KlineDict :=
  fetch_kline_data db symbol period limit none

/-- Output of `calculate_price_metrics`. -/
structure PriceMetrics where
  price_atr : ℚ
  price_range_atr : ℚ
  rsi : ℚ
deriving DecidableEq

/-- Embeds `calculate_price_metrics` (market_regime_service.py lines 229-263).
`ta_atr` / `ta_rsi` abstract the external `pandas_ta` computations wrapped
by `technical_indicators.calculate_indicators` (ATR14 / RSI14 series for a
bar list); the service only reads their last element, defaulting to 0
(ATR) and 50 (RSI) when the series is empty. -/
def calculate_price_metrics (ta_atr ta_rsi : List KlineDict → List ℚ)
    (kline_data : List KlineDict) : PriceMetrics :=
  if kline_data.length < 15 then
    { price_atr := 0.0, price_range_atr := 0.0, rsi := 50.0 }
  else
    let atr_values := ta_atr kline_data
    let rsi_values := ta_rsi kline_data
    let atr := atr_values.getLastD 0.0
    let rsi := rsi_values.getLastD 50.0
    if atr > 0 ∧ 1 ≤ kline_data.length then
      match kline_data.getLast? with
      | some latest =>
          { price_atr := (latest.close - latest.«open») / atr
            price_range_atr := (latest.high - latest.low) / atr
            rsi := rsi }
      | none => { price_atr := 0.0, price_range_atr := 0.0, rsi := rsi }
    else
      { price_atr := 0.0, price_range_atr := 0.0, rsi := rsi }

/-- The `CVD` entry of the flow-indicator mapping; the service reads
`cvd_data.get("current", 0)`. -/
structure CvdData where
  current : Option ℚ
deriving DecidableEq

/-- The `TAKER` entry; the service reads `.get("buy", 0)` / `.get("sell", 0)`. -/
structure TakerData where
  buy : Option ℚ
  sell : Option ℚ
deriving DecidableEq

/-- The `OI_DELTA` entry; the service reads `.get("current", 0)`. -/
structure OiDeltaData where
  current : Option ℚ
deriving DecidableEq

/-- Modelled from the spec: result of the external
`get_flow_indicators_for_prompt` collaborator
(`services/market_flow_indicators.py`, not part of the analysed sources):
"Given (symbol, timeframe, as-of-time), returns: cumulative volume delta,
taker buy/sell notional totals, OI delta percentage", where each entry
"may be partially or fully absent". -/
structure FlowData where
  cvd : Option CvdData
  taker : Option TakerData
  oi_delta : Option OiDeltaData
deriving DecidableEq

/-- The indicator snapshot of a classification result
(market_regime_service.py lines 381-387). -/
structure RegimeIndicators where
  cvd_ratio : ℚ
  oi_delta : ℚ
  taker_ratio : ℚ
  price_atr : ℚ
  rsi : ℚ
deriving DecidableEq

/-- The `debug` entry of a classification result: empty dict for the
config/timeframe failure branches, the cvd/taker echo for the missing-flow
branch, and the full snapshot on success
(market_regime_service.py lines 304, 315, 339, 388-397). -/
inductive RegimeDebug where
  | empty : RegimeDebug
  | flowMissing (cvd : Option CvdData) (taker : Option TakerData) : RegimeDebug
  | full (cvd_ratio taker_log_ratio oi_delta_pct taker_buy taker_sell total_notional : ℚ)
      (timestamp_ms : ℤ) (timeframe : String) : RegimeDebug
deriving DecidableEq

/-- The dict returned by `get_market_regime`; `indicators := none` models
the empty `{}` of the failure branches. -/
structure RegimeResult where
  regime : String
  direction : String
  confidence : ℚ
  reason : String
  indicators : Option RegimeIndicators
  debug : RegimeDebug
deriving DecidableEq

/-- The external collaborators and stored state that `get_market_regime`
reads.  `timeframes` models the key set of `TIMEFRAME_MS` and `flow` the
`get_flow_indicators_for_prompt` call, both from the external
`market_flow_indicators` module (modelled from the spec); `ta_atr`/`ta_rsi`
abstract `pandas_ta`; `log`/`exp` abstract `math.log`/`math.exp`; `now_ms`
is the ambient `datetime.utcnow()` clock in milliseconds. -/
structure RegimeEnv where
  configs : List MarketRegimeConfig
  timeframes : List String
  flow : String → String → ℤ → FlowData
  klines : List CryptoKline
  ta_atr : List KlineDict → List ℚ
  ta_rsi : List KlineDict → List ℚ
  log : ℚ → ℚ
  exp : ℚ → ℚ
  now_ms : ℤ

/-- Config resolution of `get_market_regime` (lines 289-295): a truthy
`config_id` looks the id up, otherwise the default-flagged row is used
(`get_default_config`, lines 49-53). -/
def resolve_config (configs : List MarketRegimeConfig) (config_id : Option ℤ) :
    Option MarketRegimeConfig :=
  if isTruthyInt config_id then
    configs.find? (fun c => (c.id : ℤ) == config_id.getD 0)
  else
    configs.find? (fun c => c.is_default)

/-- Embeds `get_market_regime` (market_regime_service.py lines 266-398). -/
def get_market_regime (env : RegimeEnv) (symbol : String) (timeframe : String)
    (config_id : Option ℤ) (timestamp_ms : Option ℤ) : RegimeResult :=
  match resolve_config env.configs config_id with
  | none =>
      { regime := REGIME_NOISE, direction := DIRECTION_NEUTRAL, confidence := 0.0
        reason := "No regime config found", indicators := none, debug := .empty }
  | some config =>
      if timeframe ∈ env.timeframes then
        let ts := timestamp_ms.getD env.now_ms
        let flow_data := env.flow symbol timeframe ts
        match flow_data.cvd, flow_data.taker with
        | some cvd_data, some taker_data =>
            let cvd_current := cvd_data.current.getD 0
            let taker_buy := taker_data.buy.getD 0
            let taker_sell := taker_data.sell.getD 0
            let total_notional := taker_buy + taker_sell
            let cvd_ratio := if total_notional > 0 then cvd_current / total_notional else 0.0
            let taker_log_ratio :=
              if taker_buy > 0 ∧ taker_sell > 0 then env.log (taker_buy / taker_sell) else 0.0
            let oi_delta :=
              match flow_data.oi_delta with
              | some d => d.current.getD 0
              | none => 0.0
            let kline_data := fetch_kline_data env.klines symbol timeframe 50 (some ts)
            let pm := calculate_price_metrics env.ta_atr env.ta_rsi kline_data
            let rr := classify_regime env.log cvd_ratio taker_log_ratio oi_delta
              pm.price_atr pm.rsi pm.price_range_atr config
            let direction := calculate_direction cvd_ratio taker_log_ratio pm.price_atr
            let confidence := calculate_confidence cvd_ratio taker_log_ratio oi_delta pm.price_atr
            { regime := rr.1
              direction := direction
              confidence := pyRound confidence 3
              reason := rr.2
              indicators := some
                { cvd_ratio := pyRound cvd_ratio 4
                  oi_delta := pyRound oi_delta 3
                  taker_ratio := pyRound (env.exp taker_log_ratio) 3
                  price_atr := pyRound pm.price_atr 3
                  rsi := pyRound pm.rsi 1 }
              debug := .full (pyRound cvd_ratio 4) (pyRound taker_log_ratio 4)
                (pyRound oi_delta 3) (pyRound taker_buy 2) (pyRound taker_sell 2)
                (pyRound total_notional 2) ts timeframe }
        | cvdOpt, takerOpt =>
            { regime := REGIME_NOISE, direction := DIRECTION_NEUTRAL, confidence := 0.0
              reason := "Insufficient market flow data", indicators := none
              debug := .flowMissing cvdOpt takerOpt }
      else
        { regime := REGIME_NOISE, direction := DIRECTION_NEUTRAL, confidence := 0.0
          reason := "Unsupported timeframe: " ++ timeframe, indicators := none
          debug := .empty }

-- Statistical Threshold Analyzer (signal_analysis_service.py).

/-- Constant `MIN_SAMPLES` (signal_analysis_service.py line 19). -/
def MIN_SAMPLES : ℕ := 3

/-- Constant `LIMITED_DATA_THRESHOLD` (signal_analysis_service.py line 21). -/
def LIMITED_DATA_THRESHOLD : ℕ := 10

/-- Arithmetic mean (`numpy.mean`); the service only applies it to
non-empty sample lists. -/
def listMean (l : List ℚ) : ℚ := l.sum / l.length

/-- Computes `numpy.min` on a non-empty list. -/
def listMin (l : List ℚ) : ℚ :=
  match l with
  | [] => 0
  | h :: t => t.foldl min h

/-- Computes `numpy.max` on a non-empty list. -/
def listMax (l : List ℚ) : ℚ :=
  match l with
  | [] => 0
  | h :: t => t.foldl max h

/-- Linear interpolation of a sorted sample list at a virtual rank `r`
(the value at position `⌊r⌋`, moved a fraction `r − ⌊r⌋` of the way to the
next position). -/
def interpolate (s : List ℚ) (r : ℚ) : ℚ :=
  s.getD (⌊r⌋).toNat 0 +
    (s.getD ((⌊r⌋).toNat + 1) (s.getD (⌊r⌋).toNat 0) - s.getD (⌊r⌋).toNat 0) *
      (r - (⌊r⌋ : ℚ))

/-- Embeds `numpy.percentile` with the default linear interpolation: sort the
samples and interpolate at the virtual rank `q·(n−1)/100`. -/
def percentile (l : List ℚ) (q : ℚ) : ℚ :=
  let s := List.insertionSort (fun a b => a ≤ b) l
  interpolate s (q * ((s.length : ℚ) - 1) / 100)

/-- The statistics dict of `_calculate_statistics`
(signal_analysis_service.py lines 415-432); the four percentiles are taken
on the absolute values. -/
structure Statistics where
  mean : ℚ
  std : ℚ
  min : ℚ
  max : ℚ
  p75 : ℚ
  p90 : ℚ
  p95 : ℚ
  p99 : ℚ
deriving DecidableEq

/-- Embeds `_calculate_statistics` (signal_analysis_service.py lines 415-432).
`sqrtQ` abstracts the square root inside `numpy.std`
(std = sqrt of the mean squared deviation). -/
def calculate_statistics (sqrtQ : ℚ → ℚ) (values : List ℚ) (precision : ℕ) : Statistics :=
  let abs_arr := values.map (fun x => |x|)
  let m := listMean values
  { mean := pyRound m precision
    std := pyRound (sqrtQ (listMean (values.map (fun x => (x - m) ^ 2)))) precision
    min := pyRound (listMin values) precision
    max := pyRound (listMax values) precision
    p75 := pyRound (percentile abs_arr 75) precision
    p90 := pyRound (percentile abs_arr 90) precision
    p95 := pyRound (percentile abs_arr 95) precision
    p99 := pyRound (percentile abs_arr 99) precision }

/-- One threshold suggestion; only the moderate one carries
`"recommended": True` in the source dict. -/
structure SuggestionEntry where
  threshold : ℚ
  description : String
  recommended : Bool
deriving DecidableEq

/-- The suggestions dict of `_generate_suggestions`. -/
structure Suggestions where
  aggressive : SuggestionEntry
  moderate : SuggestionEntry
  conservative : SuggestionEntry
deriving DecidableEq

/-- Embeds `_generate_suggestions` (signal_analysis_service.py lines 434-451). -/
def generate_suggestions (stats : Statistics) (metric : String) : Suggestions :=
  { aggressive := { threshold := stats.p75, description := "~25% trigger rate", recommended := false }
    moderate := { threshold := stats.p90, description := "~10% trigger rate", recommended := true }
    conservative := { threshold := stats.p95, description := "~5% trigger rate", recommended := false } }

/-- The metric-name backward-compatibility map of `analyze_metric`
(signal_analysis_service.py lines 50-55). -/
def metric_name_map (metric : String) : String :=
  if metric = "oi_delta_percent" then "oi_delta"
  else if metric = "funding_rate" then "funding"
  else if metric = "taker_buy_ratio" then "taker_ratio"
  else metric

/-- A row of the `market_trades_aggregated` table as read by
`_analyze_taker_volume`; notional columns are nullable
(`float(buy or 0)` in the source). -/
structure MarketTradesAggregated where
  symbol : String
  timestamp : ℤ
  taker_buy_notional : Option ℚ
  taker_sell_notional : Option ℚ
deriving DecidableEq

/-- Modelled from the spec: `floor_timestamp` of the external
`market_flow_indicators` module (not part of the analysed sources):
"irregular raw events are floored to timeframe-aligned time buckets". -/
def floor_timestamp (ts interval_ms : ℤ) : ℤ :=
  (ts.fdiv interval_ms) * interval_ms

/-- The ratio-dimension statistics of `_analyze_taker_volume`
(rounded to 2 decimals). -/
structure TakerRatioStats where
  mean : ℚ
  min : ℚ
  max : ℚ
  p75 : ℚ
  p90 : ℚ
  p95 : ℚ
deriving DecidableEq

/-- The volume-dimension statistics of `_analyze_taker_volume`
(rounded to 0 decimals). -/
structure TakerVolumeStats where
  mean : ℚ
  min : ℚ
  max : ℚ
  p25 : ℚ
  p50 : ℚ
  p75 : ℚ
deriving DecidableEq

/-- The two-dimensional suggestions dict of `_analyze_taker_volume`. -/
structure TakerSuggestions where
  ratio_aggressive : ℚ
  ratio_moderate : ℚ
  ratio_conservative : ℚ
  volume_low : ℚ
  volume_medium : ℚ
  volume_high : ℚ
deriving DecidableEq

/-- The result dict of `analyze_metric`; every branch of the service
returns a dict with a subset of these keys, modelled as `Option` fields
(`none` = key absent).  The composite taker-volume branch publishes its
suggestions under `taker_suggestions` and its two statistics blocks under
`ratio_statistics` / `volume_statistics`. -/
structure AnalyzeResult where
  status : String
  message : Option String := none
  symbol : Option String := none
  metric : Option String := none
  period : Option String := none
  sample_count : Option ℕ := none
  required_samples : Option ℕ := none
  time_range_hours : Option ℚ := none
  statistics : Option Statistics := none
  suggestions : Option Suggestions := none
  warning : Option String := none
  ratio_statistics : Option TakerRatioStats := none
  volume_statistics : Option TakerVolumeStats := none
  taker_suggestions : Option TakerSuggestions := none
deriving DecidableEq

/-- Embeds `_analyze_taker_volume` (signal_analysis_service.py lines 453-557):
bucket the trades table rows by floored timestamp, sum buy/sell notional
per bucket, keep buckets with positive volume and positive sell side, and
report ratio and volume statistics with threshold suggestions. -/
def analyze_taker_volume (trades : List MarketTradesAggregated) (symbol : String)
    (interval_ms start_time_ms current_time_ms : ℤ) : AnalyzeResult :=
  let records := trades.filter (fun r =>
    r.symbol == symbol.toUpper &&
    decide (start_time_ms ≤ r.timestamp) && decide (r.timestamp ≤ current_time_ms))
  if records.isEmpty then
    { status := "insufficient_data", message := some "No data available" }
  else
    let sorted_times :=
      List.insertionSort (fun a b => a ≤ b)
        ((records.map (fun r => floor_timestamp r.timestamp interval_ms)).dedup)
    if sorted_times.length < MIN_SAMPLES then
      { status := "insufficient_data"
        message := some ("Need at least " ++ toString MIN_SAMPLES ++ " samples, found "
          ++ toString sorted_times.length) }
    else
      let bucketBuy := fun (ts : ℤ) =>
        ((records.filter (fun r => floor_timestamp r.timestamp interval_ms == ts)).map
          (fun r => r.taker_buy_notional.getD 0)).sum
      let bucketSell := fun (ts : ℤ) =>
        ((records.filter (fun r => floor_timestamp r.timestamp interval_ms == ts)).map
          (fun r => r.taker_sell_notional.getD 0)).sum
      let pairs := sorted_times.filterMap (fun ts =>
        let buy := bucketBuy ts
        let sell := bucketSell ts
        let total := buy + sell
        if total > 0 ∧ sell > 0 then some (buy / sell, total) else none)
      let ratios := pairs.map Prod.fst
      let volumes := pairs.map Prod.snd
      if ratios.length < MIN_SAMPLES then
        { status := "insufficient_data"
          message := some ("Need at least " ++ toString MIN_SAMPLES ++ " valid samples") }
      else
        let ratio_stats : TakerRatioStats :=
          { mean := pyRound (listMean ratios) 2
            min := pyRound (listMin ratios) 2
            max := pyRound (listMax ratios) 2
            p75 := pyRound (percentile ratios 75) 2
            p90 := pyRound (percentile ratios 90) 2
            p95 := pyRound (percentile ratios 95) 2 }
        let volume_stats : TakerVolumeStats :=
          { mean := pyRound (listMean volumes) 0
            min := pyRound (listMin volumes) 0
            max := pyRound (listMax volumes) 0
            p25 := pyRound (percentile volumes 25) 0
            p50 := pyRound (percentile volumes 50) 0
            p75 := pyRound (percentile volumes 75) 0 }
        let time_range_hours :=
          pyRound (((sorted_times.getLastD 0 - sorted_times.headD 0 : ℤ) : ℚ) / (1000 * 60 * 60)) 1
        { status := "ok"
          symbol := some symbol
          metric := some "taker_volume"
          period := some (toString (interval_ms.fdiv 60000) ++ "m")
          sample_count := some ratios.length
          time_range_hours := some time_range_hours
          ratio_statistics := some ratio_stats
          volume_statistics := some volume_stats
          taker_suggestions := some
            { ratio_aggressive := ratio_stats.p75
              ratio_moderate := ratio_stats.p90
              ratio_conservative := ratio_stats.p95
              volume_low := volume_stats.p25
              volume_medium := volume_stats.p50
              volume_high := volume_stats.p75 } }

/-- Embeds `analyze_metric` (signal_analysis_service.py lines 27-112).
`tfms` models the `TIMEFRAME_MS` mapping of the external
`market_flow_indicators` module and `now_ms` the ambient clock.
`getHistory` abstracts the database-backed `_get_metric_history`
(symbol, mapped metric, period, days ↦ sample values and time range in
hours); a `ValueError` raised there is an `Except.error`, caught by the
try/except wrapper of the service and turned into an error status. -/
def analyze_metric (tfms : List (String × ℤ)) (now_ms : ℤ) (sqrtQ : ℚ → ℚ)
    (getHistory : String → String → String → ℤ → Except String (List ℚ × ℚ))
    (trades : List MarketTradesAggregated)
    (symbol metric period : String) (days : ℤ) : AnalyzeResult :=
  let metric := metric_name_map metric
  if metric = "taker_volume" then
    match tfms.lookup period with
    | none => { status := "error", message := some ("Unsupported period: " ++ period) }
    | some interval_ms =>
        let current_time_ms := now_ms
        let start_time_ms := current_time_ms - days * 24 * 60 * 60 * 1000
        analyze_taker_volume trades symbol interval_ms start_time_ms current_time_ms
  else
    match getHistory symbol metric period days with
    | .error e => { status := "error", message := some e }
    | .ok (values, time_range) =>
        if values.length < MIN_SAMPLES then
          { status := "insufficient_data"
            message := some ("Need at least " ++ toString MIN_SAMPLES ++ " samples, found "
              ++ toString values.length)
            sample_count := some values.length
            required_samples := some MIN_SAMPLES }
        else
          let precision := if metric = "funding" then 6 else 4
          let stats := calculate_statistics sqrtQ values precision
          let suggestions := generate_suggestions stats metric
          let warning :=
            if values.length < LIMITED_DATA_THRESHOLD then
              some ("Limited data (" ++ toString values.length
                ++ " samples). Statistics may not be representative.")
            else none
          { status := "ok"
            symbol := some symbol
            metric := some metric
            period := some period
            sample_count := some values.length
            time_range_hours := some time_range
            statistics := some stats
            suggestions := some suggestions
            warning := warning }

-- Theorems.

/-- The sign vote of one signal, as the spec words it: +1 if positive,
−1 if negative, 0 if zero. -/
def sign_vote (x : ℚ) : ℤ := if x > 0 then 1 else if x < 0 then -1 else 0

/-- C1: the guards of `classify_regime` are evaluated first-match-wins with
stop_hunt first: any indicator vector and config satisfying both the
stop_hunt guard and the breakout guard classifies as stop_hunt, not
breakout. -/
theorem classify_regime_stop_hunt_precedence (log : ℚ → ℚ)
    (c t o p rsi pr : ℚ) (cfg : MarketRegimeConfig)
    (hrange : pr > cfg.stop_hunt_range_atr)
    (hclose : |p| < cfg.stop_hunt_close_atr)
    (hcvd : |c| > cfg.breakout_cvd_z * 0.1)
    (hprice : |p| > cfg.breakout_price_atr + 0.2)
    (haligned : (c > 0 ∧ p > 0) ∨ (c < 0 ∧ p < 0))
    (hsolid : bodyRatio p pr > 0.4)
    (hconfirm :
      (t > (if cfg.breakout_taker_high > 0 then log cfg.breakout_taker_high else 3.5) ∨
       t < (if cfg.breakout_taker_low > 0 then log cfg.breakout_taker_low else -3.5)) ∨
      o > cfg.breakout_oi_z) :
    classify_regime log c t o p rsi pr cfg =
      (REGIME_STOP_HUNT, "Price spiked but closed near open") := by
  simp only [classify_regime]
  rw [if_pos ⟨hrange, hclose⟩]

/-- A config whose stop-hunt and breakout guards can hold simultaneously
(wide `stop_hunt_close_atr`), used to witness C1. -/
def c1Cfg : MarketRegimeConfig where
  id := 2
  name := "wide-close"
  is_default := false
  rolling_window := 48
  breakout_cvd_z := 1.5
  breakout_oi_z := 0.1
  breakout_price_atr := 0.3
  breakout_taker_high := 33
  breakout_taker_low := 0.03
  absorption_cvd_z := 1.5
  absorption_price_atr := 0.3
  trap_cvd_z := 1.0
  trap_oi_z := -0.5
  exhaustion_cvd_z := 1.0
  exhaustion_rsi_high := 70.0
  exhaustion_rsi_low := 30.0
  stop_hunt_range_atr := 1.0
  stop_hunt_close_atr := 10.0
  noise_cvd_z := 0.5

/-- Witness for C1 at a concrete input satisfying both guards. -/
theorem classify_regime_stop_hunt_precedence_witness :
    classify_regime (fun _ => 0) 0.22 0 0.5 2 50 2.5 c1Cfg =
      (REGIME_STOP_HUNT, "Price spiked but closed near open") :=
  classify_regime_stop_hunt_precedence (fun _ => 0) 0.22 0 0.5 2 50 2.5 c1Cfg
    (by norm_num [c1Cfg])
    (by norm_num [c1Cfg, abs_of_pos])
    (by norm_num [c1Cfg, abs_of_pos])
    (by norm_num [c1Cfg, abs_of_pos])
    (Or.inl (by norm_num))
    (by norm_num [bodyRatio, abs_of_pos])
    (Or.inr (by norm_num [c1Cfg]))

/-- C4: the function `calculate_confidence` is the stated weighted sum of the four
capped normalised magnitudes, clamped to [0,1]; the lower clamp never
fires (the sum is nonnegative) and no input magnitude can push the result
above 1. -/
theorem calculate_confidence_formula_and_clamp (c t o p : ℚ) :
    calculate_confidence c t o p =
      min 1.0 (0.3 * min |c| 0.3 / 0.3 + 0.2 * min |t| 1.0 / 1.0 +
        0.2 * min |o| 5.0 / 5.0 + 0.3 * min |p| 2.0 / 2.0) ∧
    0 ≤ calculate_confidence c t o p ∧ calculate_confidence c t o p ≤ 1 := by
  have hc : (0:ℚ) ≤ min |c| 0.3 := le_min (abs_nonneg c) (by norm_num)
  have ht : (0:ℚ) ≤ min |t| 1.0 := le_min (abs_nonneg t) (by norm_num)
  have ho : (0:ℚ) ≤ min |o| 5.0 := le_min (abs_nonneg o) (by norm_num)
  have hp : (0:ℚ) ≤ min |p| 2.0 := le_min (abs_nonneg p) (by norm_num)
  have hscore : (0:ℚ) ≤ 0.3 * min |c| 0.3 / 0.3 + 0.2 * min |t| 1.0 / 1.0 +
      0.2 * min |o| 5.0 / 5.0 + 0.3 * min |p| 2.0 / 2.0 := by
    have h1 : (0:ℚ) ≤ 0.3 * min |c| 0.3 / 0.3 :=
      div_nonneg (mul_nonneg (by norm_num) hc) (by norm_num)
    have h2 : (0:ℚ) ≤ 0.2 * min |t| 1.0 / 1.0 :=
      div_nonneg (mul_nonneg (by norm_num) ht) (by norm_num)
    have h3 : (0:ℚ) ≤ 0.2 * min |o| 5.0 / 5.0 :=
      div_nonneg (mul_nonneg (by norm_num) ho) (by norm_num)
    have h4 : (0:ℚ) ≤ 0.3 * min |p| 2.0 / 2.0 :=
      div_nonneg (mul_nonneg (by norm_num) hp) (by norm_num)
    linarith
  have hmin : (0.0:ℚ) ≤ min 1.0 (0.3 * min |c| 0.3 / 0.3 + 0.2 * min |t| 1.0 / 1.0 +
      0.2 * min |o| 5.0 / 5.0 + 0.3 * min |p| 2.0 / 2.0) := by
    rw [show (0.0:ℚ) = 0 from by norm_num]
    exact le_min (by norm_num) hscore
  refine ⟨?_, ?_, ?_⟩
  · simp only [calculate_confidence]
    exact max_eq_right hmin
  · simp only [calculate_confidence]
    exact le_trans (by norm_num) (le_max_left (0.0:ℚ) _)
  · simp only [calculate_confidence]
    exact max_le (by norm_num) (le_trans (min_le_left _ _) (by norm_num))

/-- The final vote dispatch of `calculate_direction`, characterised over an
arbitrary net vote. -/
theorem direction_ite_spec (v : ℤ) :
    ((if v ≥ 2 then DIRECTION_BULLISH
      else if v ≤ -2 then DIRECTION_BEARISH else DIRECTION_NEUTRAL) = DIRECTION_BULLISH ↔
      2 ≤ v) ∧
    ((if v ≥ 2 then DIRECTION_BULLISH
      else if v ≤ -2 then DIRECTION_BEARISH else DIRECTION_NEUTRAL) = DIRECTION_BEARISH ↔
      v ≤ -2) ∧
    ((if v ≥ 2 then DIRECTION_BULLISH
      else if v ≤ -2 then DIRECTION_BEARISH else DIRECTION_NEUTRAL) = DIRECTION_NEUTRAL ↔
      (¬ 2 ≤ v ∧ ¬ v ≤ -2)) := by
  by_cases h1 : v ≥ 2
  · rw [if_pos h1]
    exact ⟨iff_of_true rfl h1, iff_of_false (by decide) (by omega),
      iff_of_false (by decide) (fun h => h.1 h1)⟩
  · rw [if_neg h1]
    by_cases h2 : v ≤ -2
    · rw [if_pos h2]
      exact ⟨iff_of_false (by decide) h1, iff_of_true rfl h2,
        iff_of_false (by decide) (fun h => h.2 h2)⟩
    · rw [if_neg h2]
      exact ⟨iff_of_false (by decide) h1, iff_of_false (by decide) h2,
        iff_of_true rfl ⟨h1, h2⟩⟩

/-- C5: the function `calculate_direction` is the majority vote of the three sign
votes: bullish iff the net vote is at least 2, bearish iff it is at most
−2, neutral otherwise; including the three concrete instances from the
spec. -/
theorem calculate_direction_majority_vote (c t p : ℚ) :
    (calculate_direction c t p = DIRECTION_BULLISH ↔
      2 ≤ sign_vote c + sign_vote t + sign_vote p) ∧
    (calculate_direction c t p = DIRECTION_BEARISH ↔
      sign_vote c + sign_vote t + sign_vote p ≤ -2) ∧
    (calculate_direction c t p = DIRECTION_NEUTRAL ↔
      (¬ 2 ≤ sign_vote c + sign_vote t + sign_vote p ∧
       ¬ sign_vote c + sign_vote t + sign_vote p ≤ -2)) ∧
    calculate_direction 0.2 0.5 0.3 = DIRECTION_BULLISH ∧
    calculate_direction (-0.2) (-0.5) (-0.3) = DIRECTION_BEARISH ∧
    calculate_direction 0.2 (-0.5) 0 = DIRECTION_NEUTRAL := by
  refine ⟨?_, ?_, ?_, ?_, ?_, ?_⟩
  · simp only [calculate_direction, sign_vote]
    exact (direction_ite_spec _).1
  · simp only [calculate_direction, sign_vote]
    exact (direction_ite_spec _).2.1
  · simp only [calculate_direction, sign_vote]
    exact (direction_ite_spec _).2.2
  · norm_num [calculate_direction]
  · norm_num [calculate_direction]
  · norm_num [calculate_direction]

/-- C9: the body-ratio expression of the breakout guard divides only when
the range is positive: for a nonpositive range the body ratio is defined
to be 1.0, which satisfies the solid-move condition (> 0.4), so a
zero-range bar is not excluded from breakout by that check. -/
theorem bodyRatio_zero_range (p pr : ℚ) (h : pr ≤ 0) :
    bodyRatio p pr = 1.0 ∧ bodyRatio p pr > 0.4 := by
  have hcond : ¬ pr > 0 := not_lt.mpr h
  unfold bodyRatio
  rw [if_neg hcond]
  norm_num

/-- Witness for C9 at a zero-range bar. -/
theorem bodyRatio_zero_range_witness :
    (0:ℚ) ≤ 0 ∧ (bodyRatio 5 0 = 1.0 ∧ bodyRatio 5 0 > 0.4) :=
  ⟨le_refl 0, bodyRatio_zero_range 5 0 (le_refl 0)⟩

/-- C10: the function `fetch_kline_data` applies the as-of bound only when
`current_time_ms` is truthy: for `0` and for `None` it applies no
timestamp bound and returns the most recent bars (the unbounded
pipeline). -/
theorem fetch_kline_data_falsy_as_of (db : List CryptoKline) (symbol period : String)
    (limit : ℕ) :
    fetch_kline_data db symbol period limit (some 0) =
      fetch_kline_data_unbounded db symbol period limit ∧
    fetch_kline_data db symbol period limit none =
      fetch_kline_data_unbounded db symbol period limit :=
  ⟨rfl, rfl⟩

/-- Bars strictly after a truthy as-of bound are dropped by the
`fetch_kline_data` time filter, so appending them to the table does not
change the fetched window. -/
theorem fetch_kline_data_no_lookahead_append (db newBars : List CryptoKline)
    (symbol period : String) (limit : ℕ) (as_of : ℤ) (h0 : as_of ≠ 0)
    (hnew : ∀ b ∈ newBars, as_of < b.timestamp * 1000) :
    fetch_kline_data (db ++ newBars) symbol period limit (some as_of) =
      fetch_kline_data db symbol period limit (some as_of) := by
  have htruthy : isTruthyInt (some as_of) = true := bne_iff_ne.mpr h0
  have hts : ∀ ts : ℤ, as_of < ts * 1000 → as_of.fdiv 1000 < ts := by
    intro ts h
    rw [Int.fdiv_eq_ediv _ (by norm_num)]
    by_contra hc
    push_neg at hc
    exact absurd ((Int.le_ediv_iff_mul_le (by norm_num)).mp hc) (not_le.mpr h)
  have hnil : (newBars.filter (fun k => k.symbol == symbol && k.period == period)).filter
      (fun k => decide (k.timestamp ≤ as_of.fdiv 1000)) = [] := by
    rw [List.filter_eq_nil_iff]
    intro b hb
    have hb' : b ∈ newBars := List.mem_of_mem_filter hb
    simp only [decide_eq_true_eq]
    exact not_le.mpr (hts b.timestamp (hnew b hb'))
  simp only [fetch_kline_data, htruthy, if_true, Option.getD_some, List.filter_append]
  rw [hnil, List.append_nil]

/-- C2 (amended): for a truthy (nonzero) as-of timestamp, inserting bars
timestamped after the as-of time into the K-line table does not change the
classification `get_market_regime` computes at that time. -/
theorem get_market_regime_no_lookahead (env : RegimeEnv) (symbol timeframe : String)
    (config_id : Option ℤ) (as_of : ℤ) (h0 : as_of ≠ 0) (newBars : List CryptoKline)
    (hnew : ∀ b ∈ newBars, as_of < b.timestamp * 1000) :
    get_market_regime { env with klines := env.klines ++ newBars }
        symbol timeframe config_id (some as_of) =
      get_market_regime env symbol timeframe config_id (some as_of) := by
  have hf := fetch_kline_data_no_lookahead_append env.klines newBars symbol timeframe 50
    as_of h0 hnew
  simp only [get_market_regime, Option.getD_some]
  rw [hf]

/-- Environment used for the concrete C2 scenarios: one default config,
flow data present, an initially empty K-line table, constant indicator
series, and `log`/`exp` instantiated by constants. -/
def c2Env : RegimeEnv where
  configs := [defaultConfig]
  timeframes := ["5m"]
  flow := fun _ _ _ =>
    { cvd := some { current := some 1 }
      taker := some { buy := some 3, sell := some 1 }
      oi_delta := some { current := some 1 } }
  klines := []
  ta_atr := fun _ => [200]
  ta_rsi := fun _ => [50]
  log := fun _ => 0
  exp := fun _ => 1
  now_ms := 0

/-- A single bar timestamped strictly after every truthy as-of below. -/
def c2NewBars : List CryptoKline :=
  [{ symbol := "BTC", period := "5m", timestamp := 1, open_price := some 1,
     high_price := some 1, low_price := some 1, close_price := some 1, volume := some 1 }]

/-- Witness for the amended C2 at a concrete truthy as-of. -/
theorem get_market_regime_no_lookahead_witness :
    get_market_regime { c2Env with klines := c2Env.klines ++ c2NewBars }
        "BTC" "5m" none (some 500) =
      get_market_regime c2Env "BTC" "5m" none (some 500) :=
  get_market_regime_no_lookahead c2Env "BTC" "5m" none 500 (by decide) c2NewBars
    (by decide)

/-- C2 counterexample: at as-of timestamp 0 the bar lookup applies no
bound at all (Python truthiness), so a lookup used by classification
returns a bar timestamped after the requested as-of time instead of
excluding it. -/
theorem fetch_kline_data_as_of_zero_counterexample :
    fetch_kline_data c2NewBars "BTC" "5m" 50 (some 0) =
      [{ timestamp := 1, «open» := 1, high := 1, low := 1, close := 1, volume := 1 }] ∧
    (0:ℤ) < 1 * 1000 :=
  ⟨rfl, by decide⟩

/-- C3: whenever no config resolves, the timeframe is unsupported, or the
flow data is missing its CVD or taker entry, `get_market_regime` degrades
to regime `noise` with confidence 0 and a non-empty reason string (the
function is total, so no exception escapes). -/
theorem get_market_regime_degrades (env : RegimeEnv) (symbol timeframe : String)
    (config_id : Option ℤ) (timestamp_ms : Option ℤ)
    (h : resolve_config env.configs config_id = none ∨
         timeframe ∉ env.timeframes ∨
         (env.flow symbol timeframe (timestamp_ms.getD env.now_ms)).cvd = none ∨
         (env.flow symbol timeframe (timestamp_ms.getD env.now_ms)).taker = none) :
    (get_market_regime env symbol timeframe config_id timestamp_ms).regime = REGIME_NOISE ∧
    (get_market_regime env symbol timeframe config_id timestamp_ms).confidence = 0 ∧
    (get_market_regime env symbol timeframe config_id timestamp_ms).reason ≠ "" := by
  rcases hres : resolve_config env.configs config_id with _ | cfg
  · refine ⟨?_, ?_, ?_⟩
    · simp only [get_market_regime, hres]
    · simp only [get_market_regime, hres]
      norm_num
    · simp only [get_market_regime, hres]
      decide
  · by_cases htf : timeframe ∈ env.timeframes
    · have hflow : (env.flow symbol timeframe (timestamp_ms.getD env.now_ms)).cvd = none ∨
          (env.flow symbol timeframe (timestamp_ms.getD env.now_ms)).taker = none := by
        rcases h with h | h | h | h
        · rw [hres] at h; exact absurd h (by simp)
        · exact absurd htf h
        · exact Or.inl h
        · exact Or.inr h
      rcases hcvd : (env.flow symbol timeframe (timestamp_ms.getD env.now_ms)).cvd with _ | cv
      · refine ⟨?_, ?_, ?_⟩
        · simp only [get_market_regime, hres, if_pos htf, hcvd]
        · simp only [get_market_regime, hres, if_pos htf, hcvd]
          norm_num
        · simp only [get_market_regime, hres, if_pos htf, hcvd]
          decide
      · have htaker : (env.flow symbol timeframe (timestamp_ms.getD env.now_ms)).taker = none := by
          rcases hflow with h' | h'
          · rw [hcvd] at h'; exact absurd h' (by simp)
          · exact h'
        refine ⟨?_, ?_, ?_⟩
        · simp only [get_market_regime, hres, if_pos htf, hcvd, htaker]
        · simp only [get_market_regime, hres, if_pos htf, hcvd, htaker]
          norm_num
        · simp only [get_market_regime, hres, if_pos htf, hcvd, htaker]
          decide
    · refine ⟨?_, ?_, ?_⟩
      · simp only [get_market_regime, hres, if_neg htf]
      · simp only [get_market_regime, hres, if_neg htf]
        norm_num
      · simp only [get_market_regime, hres, if_neg htf]
        intro hc
        have h2 := congrArg String.data hc
        simp at h2

/-- Environment with no configs at all, used to witness C3. -/
def c3Env : RegimeEnv where
  configs := []
  timeframes := ["5m"]
  flow := fun _ _ _ => { cvd := none, taker := none, oi_delta := none }
  klines := []
  ta_atr := fun _ => []
  ta_rsi := fun _ => []
  log := fun _ => 0
  exp := fun _ => 1
  now_ms := 0

/-- Witness for C3: with no resolvable config the result is noise with
confidence 0 and an explicit reason. -/
theorem get_market_regime_degrades_witness :
    (get_market_regime c3Env "BTC" "5m" none none).regime = REGIME_NOISE ∧
    (get_market_regime c3Env "BTC" "5m" none none).confidence = 0 ∧
    (get_market_regime c3Env "BTC" "5m" none none).reason ≠ "" :=
  get_market_regime_degrades c3Env "BTC" "5m" none none (Or.inl rfl)

/-- Value of `List.getD` at an in-range index is the corresponding element. -/
theorem getD_of_lt (s : List ℚ) (d : ℚ) (i : ℕ) (h : i < s.length) :
    s.getD i d = s[i] := by
  simp [List.getD_eq_getElem?_getD, List.getElem?_eq_getElem h]

/-- Value of `List.getD` past the end is the default. -/
theorem getD_of_le (s : List ℚ) (d : ℚ) (i : ℕ) (h : s.length ≤ i) :
    s.getD i d = d := by
  simp [List.getD_eq_getElem?_getD, List.getElem?_eq_none h]

/-- Elements of a sorted list are monotone in the index. -/
theorem sorted_getElem_le {s : List ℚ} (hs : s.Sorted (· ≤ ·)) (a b : ℕ)
    (ha : a < s.length) (hb : b < s.length) (hab : a ≤ b) :
    s[a] ≤ s[b] := by
  have h := @List.Sorted.rel_get_of_le ℚ (fun x y => x ≤ y) _ s hs ⟨a, ha⟩ ⟨b, hb⟩ hab
  simpa using h

/-- Linear interpolation over a sorted list is monotone in the rank, for
ranks within the index range. -/
theorem interpolate_mono (s : List ℚ) (hs : s.Sorted (· ≤ ·)) (r1 r2 : ℚ)
    (h0 : 0 ≤ r1) (h12 : r1 ≤ r2) (h2 : r2 ≤ (s.length : ℚ) - 1) :
    interpolate s r1 ≤ interpolate s r2 := by
  have hr2 : (0:ℚ) ≤ r2 := le_trans h0 h12
  have hf1 : (0:ℤ) ≤ ⌊r1⌋ := Int.floor_nonneg.mpr h0
  have hf2 : (0:ℤ) ≤ ⌊r2⌋ := Int.floor_nonneg.mpr hr2
  have hfl2 : (⌊r2⌋ : ℚ) ≤ (s.length : ℚ) - 1 := le_trans (Int.floor_le r2) h2
  have hfl2' : ⌊r2⌋ ≤ (s.length : ℤ) - 1 := by exact_mod_cast hfl2
  have hi2_lt : (⌊r2⌋).toNat < s.length := by omega
  have hi12 : (⌊r1⌋).toNat ≤ (⌊r2⌋).toNat := Int.toNat_le_toNat (Int.floor_mono h12)
  have hi1_lt : (⌊r1⌋).toNat < s.length := lt_of_le_of_lt hi12 hi2_lt
  have hfr1_0 : 0 ≤ r1 - (⌊r1⌋ : ℚ) := by linarith [Int.floor_le r1]
  have hfr1_1 : r1 - (⌊r1⌋ : ℚ) < 1 := by linarith [Int.lt_floor_add_one r1]
  have hfr2_0 : 0 ≤ r2 - (⌊r2⌋ : ℚ) := by linarith [Int.floor_le r2]
  have e1 : s.getD (⌊r1⌋).toNat 0 = s[(⌊r1⌋).toNat] := getD_of_lt s 0 _ hi1_lt
  have e2 : s.getD (⌊r2⌋).toNat 0 = s[(⌊r2⌋).toNat] := getD_of_lt s 0 _ hi2_lt
  have hlohi1 : s.getD (⌊r1⌋).toNat 0 ≤ s.getD ((⌊r1⌋).toNat + 1) (s.getD (⌊r1⌋).toNat 0) := by
    by_cases hc : (⌊r1⌋).toNat + 1 < s.length
    · rw [e1, getD_of_lt s _ _ hc]
      exact sorted_getElem_le hs _ _ (by omega) hc (Nat.le_succ _)
    · rw [getD_of_le s (s.getD (⌊r1⌋).toNat 0) ((⌊r1⌋).toNat + 1) (by omega)]
  have hlohi2 : s.getD (⌊r2⌋).toNat 0 ≤ s.getD ((⌊r2⌋).toNat + 1) (s.getD (⌊r2⌋).toNat 0) := by
    by_cases hc : (⌊r2⌋).toNat + 1 < s.length
    · rw [e2, getD_of_lt s _ _ hc]
      exact sorted_getElem_le hs _ _ (by omega) hc (Nat.le_succ _)
    · rw [getD_of_le s (s.getD (⌊r2⌋).toNat 0) ((⌊r2⌋).toNat + 1) (by omega)]
  unfold interpolate
  rcases eq_or_lt_of_le hi12 with heq | hlt
  · have hfeq : ⌊r1⌋ = ⌊r2⌋ := by omega
    have hfr12 : r1 - (⌊r2⌋ : ℚ) ≤ r2 - (⌊r2⌋ : ℚ) := by linarith
    rw [heq, hfeq]
    linarith [mul_le_mul_of_nonneg_left hfr12 (sub_nonneg.mpr hlohi2)]
  · -- the rank cells are distinct: pass through the cell boundary
    have hup : s.getD (⌊r1⌋).toNat 0 +
        (s.getD ((⌊r1⌋).toNat + 1) (s.getD (⌊r1⌋).toNat 0) - s.getD (⌊r1⌋).toNat 0) *
          (r1 - (⌊r1⌋ : ℚ)) ≤
        s.getD ((⌊r1⌋).toNat + 1) (s.getD (⌊r1⌋).toNat 0) := by
      nlinarith [mul_le_of_le_one_right (sub_nonneg.mpr hlohi1) (le_of_lt hfr1_1)]
    have hsucc_lt : (⌊r1⌋).toNat + 1 < s.length := by omega
    have hmid : s.getD ((⌊r1⌋).toNat + 1) (s.getD (⌊r1⌋).toNat 0) ≤ s.getD (⌊r2⌋).toNat 0 := by
      rw [getD_of_lt s _ _ hsucc_lt, e2]
      exact sorted_getElem_le hs _ _ hsucc_lt hi2_lt (by omega)
    have hlow : s.getD (⌊r2⌋).toNat 0 ≤ s.getD (⌊r2⌋).toNat 0 +
        (s.getD ((⌊r2⌋).toNat + 1) (s.getD (⌊r2⌋).toNat 0) - s.getD (⌊r2⌋).toNat 0) *
          (r2 - (⌊r2⌋ : ℚ)) := by
      nlinarith [mul_nonneg (sub_nonneg.mpr hlohi2) hfr2_0]
    linarith

/-- The function `percentile` is monotone in the requested percentile, for percentiles
in [0, 100] over a non-empty sample list. -/
theorem percentile_mono (l : List ℚ) (hl : l ≠ []) (q1 q2 : ℚ)
    (h0 : 0 ≤ q1) (h12 : q1 ≤ q2) (h2 : q2 ≤ 100) :
    percentile l q1 ≤ percentile l q2 := by
  have hs : (List.insertionSort (fun a b => a ≤ b) l).Sorted (· ≤ ·) :=
    List.sorted_insertionSort _ l
  have hlen : 1 ≤ (List.insertionSort (fun a b => a ≤ b) l).length := by
    rw [List.length_insertionSort]
    exact List.length_pos.mpr hl
  have hn1 : (0:ℚ) ≤ ((List.insertionSort (fun a b => a ≤ b) l).length : ℚ) - 1 := by
    have : (1:ℚ) ≤ ((List.insertionSort (fun a b => a ≤ b) l).length : ℚ) := by
      exact_mod_cast hlen
    linarith
  unfold percentile
  apply interpolate_mono _ hs
  · exact div_nonneg (mul_nonneg h0 hn1) (by norm_num)
  · have := mul_le_mul_of_nonneg_right h12 hn1
    linarith
  · have := mul_le_mul_of_nonneg_right h2 hn1
    linarith

/-- The function `roundHalfEven` stays within the enclosing integers. -/
theorem roundHalfEven_bounds (q : ℚ) :
    ⌊q⌋ ≤ roundHalfEven q ∧ roundHalfEven q ≤ ⌊q⌋ + 1 := by
  simp only [roundHalfEven]
  split_ifs <;> omega

/-- The function `roundHalfEven` is monotone. -/
theorem roundHalfEven_mono {a b : ℚ} (hab : a ≤ b) :
    roundHalfEven a ≤ roundHalfEven b := by
  rcases lt_or_eq_of_le (Int.floor_mono hab) with hf | hf
  · have h1 := (roundHalfEven_bounds a).2
    have h2 := (roundHalfEven_bounds b).1
    omega
  · simp only [roundHalfEven]
    rw [hf]
    split_ifs <;> first | omega | (exfalso; linarith)

/-- The function `pyRound` at a fixed number of digits is monotone. -/
theorem pyRound_mono (n : ℕ) {a b : ℚ} (hab : a ≤ b) :
    pyRound a n ≤ pyRound b n := by
  unfold pyRound
  have h1 : a * 10 ^ n ≤ b * 10 ^ n :=
    mul_le_mul_of_nonneg_right hab (by positivity)
  have h2 : ((roundHalfEven (a * 10 ^ n) : ℤ) : ℚ) ≤ ((roundHalfEven (b * 10 ^ n) : ℤ) : ℚ) := by
    exact_mod_cast roundHalfEven_mono h1
  have hp : (0:ℚ) < 10 ^ n := by positivity
  exact (div_le_div_iff_of_pos_right hp).mpr h2

/-- C7: for at least 3 samples, the suggested thresholds of the analyzer are the
75th/90th/95th percentiles of the absolute sample values (the moderate one
marked recommended) and satisfy aggressive ≤ moderate ≤ conservative. -/
theorem analyzer_suggestion_ordering (sqrtQ : ℚ → ℚ) (values : List ℚ)
    (precision : ℕ) (metric : String) (h3 : 3 ≤ values.length) :
    (generate_suggestions (calculate_statistics sqrtQ values precision) metric).aggressive.threshold =
      pyRound (percentile (values.map (fun x => |x|)) 75) precision ∧
    (generate_suggestions (calculate_statistics sqrtQ values precision) metric).moderate.threshold =
      pyRound (percentile (values.map (fun x => |x|)) 90) precision ∧
    (generate_suggestions (calculate_statistics sqrtQ values precision) metric).conservative.threshold =
      pyRound (percentile (values.map (fun x => |x|)) 95) precision ∧
    (generate_suggestions (calculate_statistics sqrtQ values precision) metric).moderate.recommended = true ∧
    (generate_suggestions (calculate_statistics sqrtQ values precision) metric).aggressive.threshold ≤
      (generate_suggestions (calculate_statistics sqrtQ values precision) metric).moderate.threshold ∧
    (generate_suggestions (calculate_statistics sqrtQ values precision) metric).moderate.threshold ≤
      (generate_suggestions (calculate_statistics sqrtQ values precision) metric).conservative.threshold := by
  have hne : values.map (fun x => |x|) ≠ [] := by
    intro hc
    have hlen : values.length = 0 := by simpa using congrArg List.length hc
    omega
  refine ⟨rfl, rfl, rfl, rfl, ?_, ?_⟩
  · exact pyRound_mono precision
      (percentile_mono _ hne 75 90 (by norm_num) (by norm_num) (by norm_num))
  · exact pyRound_mono precision
      (percentile_mono _ hne 90 95 (by norm_num) (by norm_num) (by norm_num))

/-- Witness for C7 on a concrete three-sample set. -/
theorem analyzer_suggestion_ordering_witness :
    3 ≤ ([1, 2, 3] : List ℚ).length ∧
    (generate_suggestions (calculate_statistics id [1, 2, 3] 4) "cvd").aggressive.threshold ≤
      (generate_suggestions (calculate_statistics id [1, 2, 3] 4) "cvd").moderate.threshold ∧
    (generate_suggestions (calculate_statistics id [1, 2, 3] 4) "cvd").moderate.threshold ≤
      (generate_suggestions (calculate_statistics id [1, 2, 3] 4) "cvd").conservative.threshold := by
  have h := analyzer_suggestion_ordering id [1, 2, 3] 4 "cvd" (by decide)
  exact ⟨by decide, h.2.2.2.2.1, h.2.2.2.2.2⟩

/-- C6 (amended): for every metric other than the composite
`taker_volume`, `analyze_metric` applies the minimum-sample gate on the
history values: fewer than 3 → `insufficient_data` reporting the found and
required counts with no statistics computed; 3 to 9 → `ok` with the
limited-data warning; 10 or more → `ok` without it. -/
theorem analyze_metric_sample_gate (tfms : List (String × ℤ)) (now_ms : ℤ)
    (sqrtQ : ℚ → ℚ)
    (getHistory : String → String → String → ℤ → Except String (List ℚ × ℚ))
    (trades : List MarketTradesAggregated) (symbol metric period : String)
    (days : ℤ) (values : List ℚ) (time_range : ℚ)
    (hmetric : ¬ metric_name_map metric = "taker_volume")
    (hhist : getHistory symbol (metric_name_map metric) period days =
      Except.ok (values, time_range)) :
    (values.length < 3 →
      analyze_metric tfms now_ms sqrtQ getHistory trades symbol metric period days =
        { status := "insufficient_data"
          message := some ("Need at least " ++ toString MIN_SAMPLES ++ " samples, found "
            ++ toString values.length)
          sample_count := some values.length
          required_samples := some MIN_SAMPLES }) ∧
    (3 ≤ values.length → values.length ≤ 9 →
      (analyze_metric tfms now_ms sqrtQ getHistory trades symbol metric period days).status
          = "ok" ∧
      (analyze_metric tfms now_ms sqrtQ getHistory trades symbol metric period days).warning
          = some ("Limited data (" ++ toString values.length
            ++ " samples). Statistics may not be representative.") ∧
      (analyze_metric tfms now_ms sqrtQ getHistory trades symbol metric period days).statistics
          ≠ none) ∧
    (10 ≤ values.length →
      (analyze_metric tfms now_ms sqrtQ getHistory trades symbol metric period days).status
          = "ok" ∧
      (analyze_metric tfms now_ms sqrtQ getHistory trades symbol metric period days).warning
          = none) := by
  refine ⟨?_, ?_, ?_⟩
  · intro hlt
    have hcond : values.length < MIN_SAMPLES := by simpa [MIN_SAMPLES] using hlt
    simp only [analyze_metric, if_neg hmetric, hhist, if_pos hcond]
  · intro h3 h9
    have hcond : ¬ values.length < MIN_SAMPLES := by simp [MIN_SAMPLES]; omega
    have hwarn : values.length < LIMITED_DATA_THRESHOLD := by
      simp [LIMITED_DATA_THRESHOLD]; omega
    refine ⟨?_, ?_, ?_⟩
    · simp only [analyze_metric, if_neg hmetric, hhist, if_neg hcond]
    · simp only [analyze_metric, if_neg hmetric, hhist, if_neg hcond, if_pos hwarn]
    · simp only [analyze_metric, if_neg hmetric, hhist, if_neg hcond]
      simp
  · intro h10
    have hcond : ¬ values.length < MIN_SAMPLES := by simp [MIN_SAMPLES]; omega
    have hwarn : ¬ values.length < LIMITED_DATA_THRESHOLD := by
      simp [LIMITED_DATA_THRESHOLD]; omega
    refine ⟨?_, ?_⟩
    · simp only [analyze_metric, if_neg hmetric, hhist, if_neg hcond]
    · simp only [analyze_metric, if_neg hmetric, hhist, if_neg hcond, if_neg hwarn]

/-- Witness for C6 (amended) on a three-sample history: `ok` with the
limited-data warning. -/
theorem analyze_metric_sample_gate_witness :
    ¬ metric_name_map "cvd" = "taker_volume" ∧
    ((analyze_metric [] 0 id (fun _ _ _ _ => Except.ok ([1, 2, 3], 5)) []
        "BTC" "cvd" "5m" 7).status = "ok" ∧
     (analyze_metric [] 0 id (fun _ _ _ _ => Except.ok ([1, 2, 3], 5)) []
        "BTC" "cvd" "5m" 7).warning
        = some ("Limited data (" ++ toString ([1, 2, 3] : List ℚ).length
          ++ " samples). Statistics may not be representative.") ∧
     (analyze_metric [] 0 id (fun _ _ _ _ => Except.ok ([1, 2, 3], 5)) []
        "BTC" "cvd" "5m" 7).statistics ≠ none) := by
  have h := analyze_metric_sample_gate [] 0 id (fun _ _ _ _ => Except.ok ([1, 2, 3], 5)) []
    "BTC" "cvd" "5m" 7 [1, 2, 3] 5 (by decide) rfl
  exact ⟨by decide, h.2.1 (by decide) (by decide)⟩

/-- C6 counterexample: for the composite `taker_volume` metric with no
data, `analyze_metric` returns `insufficient_data` *without* reporting the
found and required counts, contradicting the unrestricted claim. -/
theorem analyze_metric_taker_volume_counterexample :
    (analyze_metric [("5m", 300000)] 0 id (fun _ _ _ _ => Except.error "unused") []
        "BTC" "taker_volume" "5m" 7).status = "insufficient_data" ∧
    (analyze_metric [("5m", 300000)] 0 id (fun _ _ _ _ => Except.error "unused") []
        "BTC" "taker_volume" "5m" 7).sample_count = none ∧
    (analyze_metric [("5m", 300000)] 0 id (fun _ _ _ _ => Except.error "unused") []
        "BTC" "taker_volume" "5m" 7).required_samples = none :=
  ⟨rfl, rfl, rfl⟩

/-- The bar dict of the C8 end-to-end scenario. -/
def c8Bar : KlineDict where
  timestamp := 1
  «open» := 50000
  high := 50450
  low := 49950
  close := 50400
  volume := 1

/-- Fifteen copies of the C8 bar (enough bars for the 14-period lookback). -/
def c8Bars : List KlineDict := List.replicate 15 c8Bar

/-- C8: with the default threshold config, a 15-bar series whose last bar
has open 50000 / close 50400 / high 50450 / low 49950 and whose ATR14 is
200 yields `price_atr = 2`, `price_range_atr = 2.5` and body ratio 0.8,
and together with `cvd_ratio = 0.22` (sign-aligned with price) and
`oi_delta = 0.5` (above the default 0.1 breakout OI threshold) classifies
as a bullish breakout; the direction vote is bullish for any nonnegative
taker log ratio. -/
theorem end_to_end_breakout (ta_atr ta_rsi : List KlineDict → List ℚ)
    (log : ℚ → ℚ) (bars : List KlineDict) (b : KlineDict) (tlr : ℚ)
    (hlen : 15 ≤ bars.length)
    (hlast : bars.getLast? = some b)
    (ho : b.«open» = 50000) (hh : b.high = 50450) (hl : b.low = 49950)
    (hc : b.close = 50400)
    (hatr : (ta_atr bars).getLastD 0.0 = 200)
    (htlr : 0 ≤ tlr) :
    (calculate_price_metrics ta_atr ta_rsi bars).price_atr = 2 ∧
    (calculate_price_metrics ta_atr ta_rsi bars).price_range_atr = 2.5 ∧
    bodyRatio (calculate_price_metrics ta_atr ta_rsi bars).price_atr
      (calculate_price_metrics ta_atr ta_rsi bars).price_range_atr = 0.8 ∧
    classify_regime log 0.22 tlr 0.5
      (calculate_price_metrics ta_atr ta_rsi bars).price_atr
      (calculate_price_metrics ta_atr ta_rsi bars).rsi
      (calculate_price_metrics ta_atr ta_rsi bars).price_range_atr defaultConfig =
      (REGIME_BREAKOUT, "Bullish breakout with aligned signals") ∧
    calculate_direction 0.22 tlr
      (calculate_price_metrics ta_atr ta_rsi bars).price_atr = DIRECTION_BULLISH := by
  have hpm : calculate_price_metrics ta_atr ta_rsi bars =
      { price_atr := 2, price_range_atr := 2.5, rsi := (ta_rsi bars).getLastD 50.0 } := by
    simp only [calculate_price_metrics, hatr, hlast]
    rw [if_neg (by omega : ¬ bars.length < 15),
      if_pos (⟨by norm_num, by omega⟩ : (200:ℚ) > 0 ∧ 1 ≤ bars.length)]
    rw [ho, hh, hl, hc]
    norm_num
  rw [hpm]
  refine ⟨rfl, rfl, ?_, ?_, ?_⟩
  · norm_num [bodyRatio, abs_of_pos]
  · norm_num [classify_regime, defaultConfig, bodyRatio, abs_of_pos]
    rfl
  · rcases lt_or_eq_of_le htlr with h | h
    · norm_num [calculate_direction, h]
    · rw [← h]
      norm_num [calculate_direction]

/-- Witness for C8 on the concrete 15-bar series with constant indicator
series and a neutral taker log ratio. -/
theorem end_to_end_breakout_witness :
    (calculate_price_metrics (fun _ => [200]) (fun _ => [50]) c8Bars).price_atr = 2 ∧
    (calculate_price_metrics (fun _ => [200]) (fun _ => [50]) c8Bars).price_range_atr = 2.5 ∧
    bodyRatio (calculate_price_metrics (fun _ => [200]) (fun _ => [50]) c8Bars).price_atr
      (calculate_price_metrics (fun _ => [200]) (fun _ => [50]) c8Bars).price_range_atr = 0.8 ∧
    classify_regime (fun _ => 0) 0.22 0 0.5
      (calculate_price_metrics (fun _ => [200]) (fun _ => [50]) c8Bars).price_atr
      (calculate_price_metrics (fun _ => [200]) (fun _ => [50]) c8Bars).rsi
      (calculate_price_metrics (fun _ => [200]) (fun _ => [50]) c8Bars).price_range_atr
      defaultConfig =
      (REGIME_BREAKOUT, "Bullish breakout with aligned signals") ∧
    calculate_direction 0.22 0
      (calculate_price_metrics (fun _ => [200]) (fun _ => [50]) c8Bars).price_atr =
      DIRECTION_BULLISH :=
  end_to_end_breakout (fun _ => [200]) (fun _ => [50]) (fun _ => 0) c8Bars c8Bar 0
    (by decide) rfl rfl rfl rfl rfl rfl (le_refl 0)
